/-
Verification of the Keydash piano-chord practice app.

Shallow embedding of the TypeScript sources:
  - src/src/types.ts          : the data model (Chord, GameSettings, GameState)
  - src/src/data/chords.ts    : the CHORDS catalog (27-chord revision)
  - src/src/utils/chordUtils.ts : getAvailableChords, getRandomChord
  - src/src/App.tsx           : the game-state handlers (handleStart, handlePause,
                                handleStop, handleReveal, handleNext) and the
                                100ms timer effect (modelled as one tick step)

The repository carries two revisions of the App component; we embed the later
one (the revision with a gameMode field, a beginner "reveal/next" flow and an
isRevealed flag), whose speed-mode behaviour coincides with the earlier
revision.  JS number arithmetic is read as exact rational arithmetic.  The
call Math.floor(Math.random() * availableChords.length) produces exactly the
naturals strictly below the pool length (lemma floor_random_index_admissible
below), so randomness is passed in explicitly as the drawn index, a natural
number; an index below the pool length is called admissible.
JS "Chord | null" becomes "Option Chord".  Fields of the Chord objects that no
embedded function reads (fingering, popularity) are omitted.
-/
import Mathlib

set_option maxHeartbeats 1000000
set_option linter.unusedVariables false

namespace Keydash

/-- "export type ChordType = "major" | "minor"" from types.ts. -/
inductive ChordType where
  | major
  | minor
deriving DecidableEq, Repr

/-- "export type Difficulty = "beginner" | "intermediate" | "advanced"". -/
inductive Difficulty where
  | beginner
  | intermediate
  | advanced
deriving DecidableEq, Repr

/-- The "Difficulty | "all"" union used by the difficulty field of GameSettings. -/
inductive DifficultyFilter where
  | all
  | only (d : Difficulty)
deriving DecidableEq, Repr

/-- "export type GameMode = "speed" | "beginner"". -/
inductive GameMode where
  | speed
  | beginner
deriving DecidableEq, Repr

/-- "export type Language = "en" | "fr"". -/
inductive Language where
  | en
  | fr
deriving DecidableEq, Repr

/-- The ""all" | "selected"" union used by the mode field of GameSettings. -/
inductive SelectionMode where
  | all
  | selected
deriving DecidableEq, Repr

/-- The Chord interface of types.ts restricted to the fields the embedded
functions read: id, root, type, notes, difficulty. -/
structure Chord where
  id : String
  root : String
  type : ChordType
  notes : List String
  difficulty : Difficulty
deriving DecidableEq, Repr

/-- The GameSettings interface of types.ts (later revision, with gameMode). -/
structure GameSettings where
  language : Language
  gameMode : GameMode
  chordTypes : List ChordType
  difficulty : DifficultyFilter
  countdownDuration : ℚ
  showChordOnKeyboard : Bool
  playSound : Bool
  selectedChords : List String
  mode : SelectionMode
deriving DecidableEq, Repr

/-- The GameState interface of types.ts (later revision, with isRevealed). -/
structure GameState where
  isPlaying : Bool
  isPaused : Bool
  currentChord : Option Chord
  timeRemaining : ℚ
  chordChangeCount : Nat
  isRevealed : Bool
deriving DecidableEq, Repr

/-- The CHORDS catalog of data/chords.ts, 27-chord revision:
10 beginner, 9 intermediate, 8 advanced, every entry of type major or minor. -/
def CHORDS : List Chord := [
  ⟨"C-major", "C", ChordType.major, ["C", "E", "G"], Difficulty.beginner⟩,
  ⟨"G-major", "G", ChordType.major, ["G", "B", "D"], Difficulty.beginner⟩,
  ⟨"F-major", "F", ChordType.major, ["F", "A", "C"], Difficulty.beginner⟩,
  ⟨"D-major", "D", ChordType.major, ["D", "F#", "A"], Difficulty.beginner⟩,
  ⟨"A-major", "A", ChordType.major, ["A", "C#", "E"], Difficulty.beginner⟩,
  ⟨"E-major", "E", ChordType.major, ["E", "G#", "B"], Difficulty.beginner⟩,
  ⟨"A-minor", "A", ChordType.minor, ["A", "C", "E"], Difficulty.beginner⟩,
  ⟨"D-minor", "D", ChordType.minor, ["D", "F", "A"], Difficulty.beginner⟩,
  ⟨"E-minor", "E", ChordType.minor, ["E", "G", "B"], Difficulty.beginner⟩,
  ⟨"C-minor", "C", ChordType.minor, ["C", "Eb", "G"], Difficulty.beginner⟩,
  ⟨"B-major", "B", ChordType.major, ["B", "D#", "F#"], Difficulty.intermediate⟩,
  ⟨"Bb-major", "Bb", ChordType.major, ["Bb", "D", "F"], Difficulty.intermediate⟩,
  ⟨"Eb-major", "Eb", ChordType.major, ["Eb", "G", "Bb"], Difficulty.intermediate⟩,
  ⟨"Ab-major", "Ab", ChordType.major, ["Ab", "C", "Eb"], Difficulty.intermediate⟩,
  ⟨"Db-major", "Db", ChordType.major, ["Db", "F", "Ab"], Difficulty.intermediate⟩,
  ⟨"F-minor", "F", ChordType.minor, ["F", "Ab", "C"], Difficulty.intermediate⟩,
  ⟨"G-minor", "G", ChordType.minor, ["G", "Bb", "D"], Difficulty.intermediate⟩,
  ⟨"B-minor", "B", ChordType.minor, ["B", "D", "F#"], Difficulty.intermediate⟩,
  ⟨"Bb-minor", "Bb", ChordType.minor, ["Bb", "Db", "F"], Difficulty.intermediate⟩,
  ⟨"Gb-major", "Gb", ChordType.major, ["Gb", "Bb", "Db"], Difficulty.advanced⟩,
  ⟨"C#-major", "C#", ChordType.major, ["C#", "E#", "G#"], Difficulty.advanced⟩,
  ⟨"F#-major", "F#", ChordType.major, ["F#", "A#", "C#"], Difficulty.advanced⟩,
  ⟨"C#-minor", "C#", ChordType.minor, ["C#", "E", "G#"], Difficulty.advanced⟩,
  ⟨"F#-minor", "F#", ChordType.minor, ["F#", "A", "C#"], Difficulty.advanced⟩,
  ⟨"G#-minor", "G#", ChordType.minor, ["G#", "B", "D#"], Difficulty.advanced⟩,
  ⟨"Eb-minor", "Eb", ChordType.minor, ["Eb", "Gb", "Bb"], Difficulty.advanced⟩,
  ⟨"Ab-minor", "Ab", ChordType.minor, ["Ab", "Cb", "Eb"], Difficulty.advanced⟩]

/-- getAvailableChords of chordUtils.ts.  Note the guard of the first filter:
the selection filter only applies when settings.mode === "selected" AND
settings.selectedChords.length > 0; an empty selection skips the filter. -/
def getAvailableChords (settings : GameSettings) : List Chord :=
  let filtered := CHORDS
  let filtered :=
    if settings.mode = SelectionMode.selected ∧ settings.selectedChords.length > 0 then
      filtered.filter (fun chord => settings.selectedChords.contains chord.id)
    else filtered
  let filtered :=
    if settings.chordTypes.length > 0 then
      filtered.filter (fun chord => settings.chordTypes.contains chord.type)
    else filtered
  let filtered :=
    match settings.difficulty with
    | DifficultyFilter.all => filtered
    | DifficultyFilter.only d => filtered.filter (fun chord => chord.difficulty == d)
  filtered

/-- getRandomChord of chordUtils.ts.  Its source signature takes the settings
only; randomIndex stands for the value of
Math.floor(Math.random() * availableChords.length), which is always an
admissible index (see floor_random_index_admissible).  The array read
availableChords[randomIndex] is rendered with List.get?, which returns some of
the element whenever the index is in bounds. -/
def getRandomChord (settings : GameSettings) (randomIndex : Nat) : Option Chord :=
  let availableChords := getAvailableChords settings
  if availableChords.length = 0 then
    none
  else
    availableChords.get? randomIndex

/-- getNextChord of App.tsx: "return getRandomChord(settings, gameState.currentChord)".
The call site passes the current chord as a second argument, but the source
signature of getRandomChord has no such parameter, so JS drops the extra
argument: the current chord does not influence the draw. -/
def getNextChord (settings : GameSettings) (currentChord : Option Chord)
    (randomIndex : Nat) : Option Chord :=
  getRandomChord settings randomIndex

/-- The initial React state of App.tsx. -/
def initialState : GameState :=
  { isPlaying := false, isPaused := false, currentChord := none,
    timeRemaining := 0, chordChangeCount := 0, isRevealed := false }

/-- DEFAULT_SETTINGS of App.tsx (later revision). -/
def DEFAULT_SETTINGS : GameSettings :=
  { language := Language.en, gameMode := GameMode.speed,
    chordTypes := [ChordType.major, ChordType.minor],
    difficulty := DifficultyFilter.all, countdownDuration := 5,
    showChordOnKeyboard := true, playSound := true,
    selectedChords := [], mode := SelectionMode.all }

/-- handleStart of App.tsx.  The second component of the result is true exactly
when the "No chords available with current settings!" alert is raised, in which
case the state is returned untouched.  On success the whole state record is
replaced as in the source: playing, not paused, the drawn chord, countdown
duration (speed mode) or 0 (beginner mode) on the clock, chordChangeCount 1,
and isRevealed false in speed mode, otherwise the showChordOnKeyboard flag. -/
def handleStart (settings : GameSettings) (r : Nat) (s : GameState) :
    GameState × Bool :=
  match getNextChord settings s.currentChord r with
  | none => (s, true)
  | some chord =>
    ({ isPlaying := true
       isPaused := false
       currentChord := some chord
       timeRemaining :=
         if settings.gameMode = GameMode.speed then settings.countdownDuration else 0
       chordChangeCount := 1
       isRevealed :=
         if settings.gameMode = GameMode.speed then false
         else if settings.showChordOnKeyboard then true else false }, false)

/-- handlePause of App.tsx: stopAllSounds() (an audio effect, outside the
state) and then a state update that spreads prev and negates isPaused. -/
def handlePause (s : GameState) : GameState :=
  { s with isPaused := !s.isPaused }

/-- handleStop of App.tsx: stopAllSounds() and a reset of the whole record. -/
def handleStop (s : GameState) : GameState :=
  { isPlaying := false, isPaused := false, currentChord := none,
    timeRemaining := 0, chordChangeCount := 0, isRevealed := false }

/-- handleReveal of App.tsx (beginner mode): set isRevealed and bump
chordChangeCount to trigger the sound. -/
def handleReveal (s : GameState) : GameState :=
  { s with isRevealed := true, chordChangeCount := s.chordChangeCount + 1 }

/-- handleNext of App.tsx (beginner mode): draw the next chord; if none is
available stop the game, otherwise load it, auto-reveal it when
showChordOnKeyboard is on, and bump chordChangeCount only in that case. -/
def handleNext (settings : GameSettings) (r : Nat) (s : GameState) : GameState :=
  match getNextChord settings s.currentChord r with
  | none => handleStop s
  | some nextChord =>
    { s with currentChord := some nextChord
             isRevealed := if settings.showChordOnKeyboard then true else false
             chordChangeCount :=
               if settings.showChordOnKeyboard then s.chordChangeCount + 1
               else s.chordChangeCount }

/-- One 100ms step of the timer effect of App.tsx.  The effect is only
installed when the game is playing, not paused, and the game mode is speed;
otherwise a step leaves the state alone.  A step takes 0.1s off the clock; on
rollover (newTime <= 0) it draws the next chord, stopping the game when the
pool is exhausted and otherwise reloading the clock with the configured
countdown duration and bumping chordChangeCount. -/
def tick (settings : GameSettings) (r : Nat) (s : GameState) : GameState :=
  if s.isPlaying = false ∨ s.isPaused = true ∨ settings.gameMode ≠ GameMode.speed then
    s
  else
    let newTime := s.timeRemaining - 1/10
    if newTime ≤ 0 then
      match getNextChord settings s.currentChord r with
      | none =>
        { isPlaying := false, isPaused := false, currentChord := none,
          timeRemaining := 0, chordChangeCount := 0, isRevealed := false }
      | some nextChord =>
        { s with currentChord := some nextChord
                 timeRemaining := settings.countdownDuration
                 chordChangeCount := s.chordChangeCount + 1
                 isRevealed := false }
    else
      { s with timeRemaining := newTime }

/-- n timer steps in sequence; the k-th step (0-based) consumes the random
draw o k. -/
def applyTicks (settings : GameSettings) (o : Nat → Nat) : Nat → GameState → GameState
  | 0, s => s
  | Nat.succ n, s => tick settings (o n) (applyTicks settings o n s)

/-- The states reachable from the initial React state through the public
actions of the session (start, pause, stop) and timer steps, with the
settings held fixed as the UI does while a session runs. -/
inductive Reachable (settings : GameSettings) : GameState → Prop where
  | init : Reachable settings initialState
  | startStep (r : Nat) (s : GameState) :
      Reachable settings s → Reachable settings (handleStart settings r s).1
  | pauseStep (s : GameState) :
      Reachable settings s → Reachable settings (handlePause s)
  | stopStep (s : GameState) :
      Reachable settings s → Reachable settings (handleStop s)
  | tickStep (r : Nat) (s : GameState) :
      Reachable settings s → Reachable settings (tick settings r s)

/-- The first catalog entry, the C major chord. -/
def cMajorChord : Chord :=
  ⟨"C-major", "C", ChordType.major, ["C", "E", "G"], Difficulty.beginner⟩

/-- The second catalog entry, the G major chord. -/
def gMajorChord : Chord :=
  ⟨"G-major", "G", ChordType.major, ["G", "B", "D"], Difficulty.beginner⟩

/-- The fourth catalog entry, the D major chord. -/
def dMajorChord : Chord :=
  ⟨"D-major", "D", ChordType.major, ["D", "F#", "A"], Difficulty.beginner⟩

/-- Settings whose selection restricts the pool to exactly C major and
G major. -/
def pairSettings : GameSettings :=
  { DEFAULT_SETTINGS with mode := SelectionMode.selected,
                          selectedChords := ["C-major", "G-major"] }

/-- Settings in selected mode with an empty selection. -/
def emptySelectedSettings : GameSettings :=
  { DEFAULT_SETTINGS with mode := SelectionMode.selected, selectedChords := [] }

/-- Settings in selected mode whose single selected id matches no catalog
entry, so the filtered pool is empty. -/
def noMatchSettings : GameSettings :=
  { DEFAULT_SETTINGS with mode := SelectionMode.selected,
                          selectedChords := ["H-major"] }

/-- Settings whose selection restricts the pool to the single chord C major. -/
def singleSettings : GameSettings :=
  { DEFAULT_SETTINGS with mode := SelectionMode.selected,
                          selectedChords := ["C-major"] }

/-- A concrete mid-session state used to instantiate theorems about running
sessions. -/
def runningState : GameState :=
  { isPlaying := true, isPaused := false, currentChord := some cMajorChord,
    timeRemaining := 1/10, chordChangeCount := 3, isRevealed := false }

/-- Beginner-mode settings with auto-reveal (showChordOnKeyboard) turned
off. -/
def noAutoRevealSettings : GameSettings :=
  { DEFAULT_SETTINGS with gameMode := GameMode.beginner,
                          showChordOnKeyboard := false }

/-- Math.random() yields a rational q with 0 <= q < 1, so for a pool of
positive length n the index Math.floor(q * n) computed by getRandomChord is
always strictly below n: the draws of the source are exactly the admissible
indices of the model. -/
theorem floor_random_index_admissible (q : ℚ) (n : Nat) (h0 : 0 ≤ q)
    (h1 : q < 1) (hn : 0 < n) : Int.toNat ⌊q * (n : ℚ)⌋ < n := by
  have hnq : (0 : ℚ) < (n : ℚ) := by exact_mod_cast hn
  have hlt : q * (n : ℚ) < (n : ℚ) := by nlinarith
  have hfl : ⌊q * (n : ℚ)⌋ < (n : ℤ) := by
    apply Int.floor_lt.mpr
    push_cast
    exact hlt
  omega

/-- An admissible draw makes getRandomChord return the pool element at the
drawn index. -/
theorem getRandomChord_eq_get (settings : GameSettings) (r : Nat)
    (hr : r < (getAvailableChords settings).length) :
    getRandomChord settings r =
      some ((getAvailableChords settings).get ⟨r, hr⟩) := by
  unfold getRandomChord
  have hne : ¬ (getAvailableChords settings).length = 0 := by omega
  simp [hne, List.get?_eq_get hr]

/-- C1.  The claim states that with a previous chord provided and a pool of
size at least two, the draw never returns the previous chord again, and that
for the pool consisting of C major and G major with previous chord C major the
result is deterministically G major.  The code does not implement this: the
source signature of getRandomChord takes only the settings, so the previous
chord that getNextChord passes as a second argument is dropped and no
exclusion ever happens.  Concretely, for the two-chord pool containing C major
and G major with previous chord C major, the draw at index 0 returns C major
again — an immediate repetition, where the claim requires G major. -/
theorem getNextChord_repeats_previous_chord :
    (∀ (settings : GameSettings) (prev : Option Chord) (r : Nat),
      getNextChord settings prev r = getRandomChord settings r)
    ∧ getAvailableChords pairSettings = [cMajorChord, gMajorChord]
    ∧ getNextChord pairSettings (some cMajorChord) 0 = some cMajorChord := by
  refine ⟨fun settings prev r => rfl, by decide, by decide⟩

/-- C2.  The claim states that in selected mode with an empty selection the
available pool is empty (no fallback to the whole catalog) and start reports
no chords.  The code does the opposite: the guard
"settings.mode === "selected" && settings.selectedChords.length > 0" skips the
selection filter when the selection is empty, so the pool falls back to the
full catalog and start succeeds. -/
theorem emptySelection_falls_back_to_catalog :
    getAvailableChords emptySelectedSettings = CHORDS
    ∧ (handleStart emptySelectedSettings 0 initialState).2 = false
    ∧ (handleStart emptySelectedSettings 0 initialState).1.isPlaying = true := by
  refine ⟨by decide, by decide, by decide⟩

/-- C4.  When the filtered pool is empty, handleStart raises the no-chords
notice and returns the state exactly unchanged: the failed start is atomic and
an idle session stays idle. -/
theorem handleStart_empty_pool_atomic (settings : GameSettings) (r : Nat)
    (s : GameState) (h : getAvailableChords settings = []) :
    handleStart settings r s = (s, true) := by
  unfold handleStart getNextChord getRandomChord
  rw [h]
  rfl

/-- Witness for C4 at concrete inputs: the selection matches no catalog entry,
so the pool is empty and start leaves the initial state untouched while
raising the notice. -/
theorem handleStart_empty_pool_atomic_witness :
    getAvailableChords noMatchSettings = []
    ∧ handleStart noMatchSettings 0 initialState = (initialState, true) :=
  ⟨by decide, handleStart_empty_pool_atomic noMatchSettings 0 initialState (by decide)⟩

/-- C5.  On a running session, handlePause toggles the isPaused flag and
changes nothing else: isPlaying, currentChord, timeRemaining, chordChangeCount
and isRevealed all keep their values, so in particular no chordChangeCount
bump (and hence no audio replay) happens on pause or resume. -/
theorem handlePause_toggles_only_isPaused (s : GameState)
    (h : s.isPlaying = true) :
    (handlePause s).isPaused = !s.isPaused
    ∧ (handlePause s).isPlaying = s.isPlaying
    ∧ (handlePause s).currentChord = s.currentChord
    ∧ (handlePause s).timeRemaining = s.timeRemaining
    ∧ (handlePause s).chordChangeCount = s.chordChangeCount
    ∧ (handlePause s).isRevealed = s.isRevealed := by
  unfold handlePause
  exact ⟨rfl, rfl, rfl, rfl, rfl, rfl⟩

/-- Witness for C5 at a concrete running state. -/
theorem handlePause_toggles_only_isPaused_witness :
    (handlePause runningState).isPaused = !runningState.isPaused
    ∧ (handlePause runningState).isPlaying = runningState.isPlaying
    ∧ (handlePause runningState).currentChord = runningState.currentChord
    ∧ (handlePause runningState).timeRemaining = runningState.timeRemaining
    ∧ (handlePause runningState).chordChangeCount = runningState.chordChangeCount
    ∧ (handlePause runningState).isRevealed = runningState.isRevealed :=
  handlePause_toggles_only_isPaused runningState (by decide)

/-- C6.  For a single-chord pool, every admissible draw returns that chord,
also when that same chord is the previous one: repetition is allowed for a
one-chord pool and the draw never returns none. -/
theorem getRandomChord_singleton_pool (settings : GameSettings) (r : Nat)
    (c : Chord) (hpool : getAvailableChords settings = [c])
    (hr : r < (getAvailableChords settings).length) :
    getRandomChord settings r = some c
    ∧ getNextChord settings (some c) r = some c := by
  have hr0 : r = 0 := by
    rw [hpool] at hr
    simpa using hr
  subst hr0
  have h1 : getRandomChord settings 0 = some c := by
    unfold getRandomChord
    rw [hpool]
    rfl
  exact ⟨h1, h1⟩

/-- Witness for C6: a selection containing only C major, drawn at index 0 with
C major itself as the previous chord. -/
theorem getRandomChord_singleton_pool_witness :
    getRandomChord singleSettings 0 = some cMajorChord
    ∧ getNextChord singleSettings (some cMajorChord) 0 = some cMajorChord :=
  getRandomChord_singleton_pool singleSettings 0 cMajorChord (by decide) (by decide)

/-- C8.  With selection mode "all", both chord types enabled and the
difficulty filter "all", the available pool is the entire catalog: no entry is
dropped. -/
theorem getAvailableChords_all_filters_full_catalog (settings : GameSettings)
    (hmode : settings.mode = SelectionMode.all)
    (htypes : settings.chordTypes = [ChordType.major, ChordType.minor])
    (hdiff : settings.difficulty = DifficultyFilter.all) :
    getAvailableChords settings = CHORDS := by
  have h1 : ¬ (settings.mode = SelectionMode.selected ∧
      settings.selectedChords.length > 0) := by
    rw [hmode]
    rintro ⟨hcon, -⟩
    exact SelectionMode.noConfusion hcon
  unfold getAvailableChords
  dsimp only
  rw [htypes, hdiff, if_neg h1, if_pos (by norm_num)]
  decide

/-- Witness for C8: the default settings have exactly those filters. -/
theorem getAvailableChords_all_filters_full_catalog_witness :
    getAvailableChords DEFAULT_SETTINGS = CHORDS :=
  getAvailableChords_all_filters_full_catalog DEFAULT_SETTINGS rfl rfl rfl

/-- C10.  getRandomChord is total: it returns none exactly when the filtered
pool is empty, and under any admissible draw a returned chord is an element of
the filtered pool — never a chord outside it. -/
theorem getRandomChord_total_within_pool (settings : GameSettings) (r : Nat)
    (hr : getAvailableChords settings ≠ [] →
      r < (getAvailableChords settings).length) :
    (getRandomChord settings r = none ↔ getAvailableChords settings = [])
    ∧ (∀ c, getRandomChord settings r = some c →
        c ∈ getAvailableChords settings) := by
  constructor
  · constructor
    · intro hnone
      by_contra hne
      obtain ⟨c, hc⟩ : ∃ c, getRandomChord settings r = some c :=
        ⟨_, getRandomChord_eq_get settings r (hr hne)⟩
      rw [hc] at hnone
      exact Option.noConfusion hnone
    · intro hempty
      unfold getRandomChord
      rw [hempty]
      rfl
  · intro c hc
    unfold getRandomChord at hc
    by_cases hlen : (getAvailableChords settings).length = 0
    · rw [if_pos hlen] at hc
      exact Option.noConfusion hc
    · rw [if_neg hlen] at hc
      exact List.get?_mem hc

/-- Witness for C10 at the default settings and draw 3: the pool is the whole
catalog, the draw is not none, and the returned chord (D major) is in the
pool. -/
theorem getRandomChord_total_within_pool_witness :
    (getRandomChord DEFAULT_SETTINGS 3 = none ↔
      getAvailableChords DEFAULT_SETTINGS = [])
    ∧ dMajorChord ∈ getAvailableChords DEFAULT_SETTINGS :=
  ⟨(getRandomChord_total_within_pool DEFAULT_SETTINGS 3 (fun _ => by decide)).1,
   (getRandomChord_total_within_pool DEFAULT_SETTINGS 3 (fun _ => by decide)).2
     dMajorChord (by decide)⟩

/-- C3.  chordChangeCount is set to 1 by a successful start, and incremented
by exactly one on a speed-mode timer rollover that finds a next chord, on
every reveal, and on a manual next when auto-reveal (showChordOnKeyboard) is
on; a manual next with auto-reveal off leaves it unchanged.  None of the
equations depends on the drawn chord being different from the previous one. -/
theorem chordChangeCount_increment_events (settings : GameSettings) (r : Nat)
    (s : GameState) (c : Chord) :
    (getNextChord settings s.currentChord r = some c →
      ((handleStart settings r s).1).chordChangeCount = 1)
    ∧ (handleReveal s).chordChangeCount = s.chordChangeCount + 1
    ∧ (settings.showChordOnKeyboard = true →
        getNextChord settings s.currentChord r = some c →
        (handleNext settings r s).chordChangeCount = s.chordChangeCount + 1)
    ∧ (settings.showChordOnKeyboard = false →
        getNextChord settings s.currentChord r = some c →
        (handleNext settings r s).chordChangeCount = s.chordChangeCount)
    ∧ (s.isPlaying = true → s.isPaused = false →
        settings.gameMode = GameMode.speed →
        s.timeRemaining - 1/10 ≤ 0 →
        getNextChord settings s.currentChord r = some c →
        (tick settings r s).chordChangeCount = s.chordChangeCount + 1) := by
  refine ⟨?_, ?_, ?_, ?_, ?_⟩
  · intro h
    unfold handleStart
    rw [h]
  · rfl
  · intro hshow h
    unfold handleNext
    rw [h]
    simp [hshow]
  · intro hshow h
    unfold handleNext
    rw [h]
    simp [hshow]
  · intro hplay hpause hmode hle h
    unfold tick
    rw [if_neg (by simp [hplay, hpause, hmode])]
    dsimp only
    rw [if_pos hle, h]

/-- Witness for C3: each counter equation at concrete inputs — a successful
start from the initial state, a reveal and an auto-reveal next from a running
state, a next with auto-reveal off, and a timer rollover tick. -/
theorem chordChangeCount_increment_events_witness :
    ((handleStart DEFAULT_SETTINGS 0 initialState).1).chordChangeCount = 1
    ∧ (handleReveal runningState).chordChangeCount =
        runningState.chordChangeCount + 1
    ∧ (handleNext DEFAULT_SETTINGS 0 runningState).chordChangeCount =
        runningState.chordChangeCount + 1
    ∧ (handleNext noAutoRevealSettings 0 runningState).chordChangeCount =
        runningState.chordChangeCount
    ∧ (tick DEFAULT_SETTINGS 0 runningState).chordChangeCount =
        runningState.chordChangeCount + 1 :=
  ⟨(chordChangeCount_increment_events DEFAULT_SETTINGS 0 initialState
      cMajorChord).1 (by decide),
   (chordChangeCount_increment_events DEFAULT_SETTINGS 0 runningState
      cMajorChord).2.1,
   (chordChangeCount_increment_events DEFAULT_SETTINGS 0 runningState
      cMajorChord).2.2.1 rfl (by decide),
   (chordChangeCount_increment_events noAutoRevealSettings 0 runningState
      cMajorChord).2.2.2.1 rfl (by decide),
   (chordChangeCount_increment_events DEFAULT_SETTINGS 0 runningState
      cMajorChord).2.2.2.2 rfl rfl rfl (by norm_num [runningState]) (by decide)⟩

/-- C9.  In every state reachable through start, pause, stop and timer steps,
the stored timeRemaining is nonnegative, assuming the configured countdown
duration is nonnegative (the settings UI only offers 1s to 10s): a step either
stores a still-positive decremented clock, or on rollover stores the countdown
duration or zero. -/
theorem reachable_timeRemaining_nonneg (settings : GameSettings)
    (s : GameState) (hdur : 0 ≤ settings.countdownDuration)
    (h : Reachable settings s) : 0 ≤ s.timeRemaining := by
  induction h with
  | init => norm_num [initialState]
  | startStep r s hs ih =>
    unfold handleStart
    cases hnext : getNextChord settings s.currentChord r with
    | none => exact ih
    | some c =>
      dsimp only
      by_cases hsp : settings.gameMode = GameMode.speed
      · rw [if_pos hsp]
        exact hdur
      · rw [if_neg hsp]
  | pauseStep s hs ih => exact ih
  | stopStep s hs ih => norm_num [handleStop]
  | tickStep r s hs ih =>
    unfold tick
    by_cases hg : s.isPlaying = false ∨ s.isPaused = true ∨
        settings.gameMode ≠ GameMode.speed
    · rw [if_pos hg]
      exact ih
    · rw [if_neg hg]
      dsimp only
      by_cases hle : s.timeRemaining - 1/10 ≤ 0
      · rw [if_pos hle]
        cases hnext : getNextChord settings s.currentChord r with
        | none => norm_num
        | some c => exact hdur
      · rw [if_neg hle]
        have hpos : 0 < s.timeRemaining - 1/10 := not_le.mp hle
        show (0 : ℚ) ≤ s.timeRemaining - 1/10
        linarith

/-- Witness for C9: the initial state is reachable under the default settings
and its clock reads zero. -/
theorem reachable_timeRemaining_nonneg_witness :
    0 ≤ initialState.timeRemaining :=
  reachable_timeRemaining_nonneg DEFAULT_SETTINGS initialState
    (by norm_num [DEFAULT_SETTINGS]) Reachable.init

/-- As long as the clock has strictly more than k tenths of a second left, k
timer steps just run the clock down by k tenths and change nothing else. -/
theorem applyTicks_no_rollover (settings : GameSettings) (o : Nat → Nat)
    (s : GameState) (hplay : s.isPlaying = true) (hpause : s.isPaused = false)
    (hmode : settings.gameMode = GameMode.speed) (k : Nat)
    (hk : (k : ℚ) / 10 < s.timeRemaining) :
    applyTicks settings o k s =
      { s with timeRemaining := s.timeRemaining - (k : ℚ) / 10 } := by
  induction k with
  | zero =>
    show s = { s with timeRemaining := s.timeRemaining - (0 : ℚ) / 10 }
    norm_num
  | succ n ih =>
    have hn : (n : ℚ) / 10 < s.timeRemaining := by
      have h1 : (n : ℚ) ≤ ((n : Nat) + 1 : Nat) := by push_cast; linarith
      calc (n : ℚ) / 10 ≤ ((n : Nat) + 1 : Nat) / 10 := by
            push_cast
            linarith
        _ < s.timeRemaining := hk
    have hnotle : ¬ (s.timeRemaining - (n : ℚ) / 10 - 1 / 10 ≤ 0) := by
      push_cast at hk
      intro hcon
      linarith
    show tick settings (o n) (applyTicks settings o n s) = _
    rw [ih hn]
    unfold tick
    rw [if_neg (by simp [hplay, hpause, hmode])]
    dsimp only
    rw [if_neg hnotle]
    congr 1
    push_cast
    ring

/-- C7.  In speed mode with a five-second countdown and a non-empty pool,
after a successful start and exactly 50 timer steps of 0.1s each (read as
exact rationals) with no other input, the clock crosses zero exactly once, on
the 50th step: through the first 49 steps chordChangeCount stays at its
post-start value 1 and the clock reads 5 - k/10, and the 50th step performs
the single automatic advance, leaving chordChangeCount at 2 and the clock
reloaded to 5. -/
theorem speed_fifty_ticks_single_advance (settings : GameSettings)
    (o : Nat → Nat) (r0 : Nat) (s : GameState)
    (hmode : settings.gameMode = GameMode.speed)
    (hdur : settings.countdownDuration = 5)
    (hr0 : r0 < (getAvailableChords settings).length)
    (ho : ∀ i, o i < (getAvailableChords settings).length) :
    (∀ k, k ≤ 49 →
      (applyTicks settings o k (handleStart settings r0 s).1).chordChangeCount
          = 1
      ∧ (applyTicks settings o k (handleStart settings r0 s).1).timeRemaining
          = 5 - (k : ℚ) / 10)
    ∧ (applyTicks settings o 50 (handleStart settings r0 s).1).chordChangeCount
        = 2
    ∧ (applyTicks settings o 50 (handleStart settings r0 s).1).timeRemaining
        = 5 := by
  have hc0 : getNextChord settings s.currentChord r0 =
      some ((getAvailableChords settings).get ⟨r0, hr0⟩) :=
    getRandomChord_eq_get settings r0 hr0
  set c0 : Chord := (getAvailableChords settings).get ⟨r0, hr0⟩ with hc0def
  have hs1 : (handleStart settings r0 s).1 =
      { isPlaying := true, isPaused := false, currentChord := some c0,
        timeRemaining := 5, chordChangeCount := 1, isRevealed := false } := by
    unfold handleStart
    rw [hc0]
    dsimp only
    rw [if_pos hmode, if_pos hmode, hdur]
  rw [hs1]
  have hbase : ∀ k : Nat, k ≤ 49 →
      applyTicks settings o k
        { isPlaying := true, isPaused := false, currentChord := some c0,
          timeRemaining := 5, chordChangeCount := 1, isRevealed := false } =
      { isPlaying := true, isPaused := false, currentChord := some c0,
        timeRemaining := 5 - (k : ℚ) / 10, chordChangeCount := 1,
        isRevealed := false } := by
    intro k hk49
    rw [applyTicks_no_rollover settings o _ rfl rfl hmode k (by
      show (k : ℚ) / 10 < 5
      have : (k : ℚ) ≤ 49 := by exact_mod_cast hk49
      linarith)]
  refine ⟨fun k hk49 => by rw [hbase k hk49]; exact ⟨rfl, rfl⟩, ?_, ?_⟩
  all_goals
    have h50 : applyTicks settings o 50
        { isPlaying := true, isPaused := false, currentChord := some c0,
          timeRemaining := 5, chordChangeCount := 1, isRevealed := false } =
        { isPlaying := true, isPaused := false,
          currentChord := some ((getAvailableChords settings).get ⟨o 49, ho 49⟩),
          timeRemaining := 5, chordChangeCount := 2, isRevealed := false } := by
      show tick settings (o 49) (applyTicks settings o 49 _) = _
      rw [hbase 49 (by norm_num)]
      unfold tick
      rw [if_neg (by simp [hmode])]
      dsimp only
      rw [if_pos (by norm_num)]
      rw [show getNextChord settings (some c0) (o 49) =
          some ((getAvailableChords settings).get ⟨o 49, ho 49⟩) from
        getRandomChord_eq_get settings (o 49) (ho 49)]
      dsimp only
      rw [hdur]
    rw [h50]

/-- Witness for C7: the default settings (speed mode, five-second countdown,
27-chord pool) from the initial state, with every draw at index 0. -/
theorem speed_fifty_ticks_single_advance_witness :
    (applyTicks DEFAULT_SETTINGS (fun i => 0) 50
        (handleStart DEFAULT_SETTINGS 0 initialState).1).chordChangeCount = 2
    ∧ (applyTicks DEFAULT_SETTINGS (fun i => 0) 50
        (handleStart DEFAULT_SETTINGS 0 initialState).1).timeRemaining = 5 :=
  (speed_fifty_ticks_single_advance DEFAULT_SETTINGS (fun i => 0) 0
    initialState rfl rfl (by decide)
    (fun i => (by decide : 0 < (getAvailableChords DEFAULT_SETTINGS).length))).2

end Keydash
